import Mathlib

/-!
Verification development for the scanx-brief clinical-trial pipeline
(`src/brief/utils.py`, `src/brief/models.py`).

The Python code is shallowly embedded: raw registry records are JSON-like
values, dictionary access follows Python `dict.get` semantics (raising
`AttributeError` when the receiver is not a dict), dates are proleptic
Gregorian dates with Python's `date.toordinal` day numbering, and the
fallible pipeline steps (HTTP fetches, the OpenAI call) are oracles
supplied through an environment record.
-/

namespace ScanX

/-! ### JSON values and Python dictionary semantics -/

/-- A JSON value as delivered by the ClinicalTrials.gov API. -/
inductive Json where
  | null
  | bool (b : Bool)
  | num (n : Int)
  | str (s : String)
  | arr (xs : List Json)
  | obj (fields : List (String × Json))

/-- Dynamic errors raised by Python attribute access / subscripting. -/
inductive PyError where
  | attributeError
  | typeError
deriving DecidableEq, Repr

/-- Python truthiness of a JSON value (`bool(v)`). -/
def Json.truthy : Json → Bool
  | .null => false
  | .bool b => b
  | .num n => n != 0
  | .str s => s != ""
  | .arr xs => !xs.isEmpty
  | .obj fs => !fs.isEmpty

/-- Python `v.get(key, default)`: returns the stored value (even `None`) when
the key is present, the default when absent, and raises `AttributeError`
when `v` is not a dict. -/
def Json.get (j : Json) (key : String) (default : Json) : Except PyError Json :=
  match j with
  | .obj fs =>
    match fs.lookup key with
    | some v => .ok v
    | none => .ok default
  | _ => .error .attributeError

mutual

/-- Python `repr` of a JSON value (used by `str` on containers). -/
def pyRepr : Json → String
  | .null => "None"
  | .bool true => "True"
  | .bool false => "False"
  | .num n => toString n
  | .str s => "'" ++ s ++ "'"
  | .arr xs => "[" ++ pyReprList xs ++ "]"
  | .obj fs => "\x7b" ++ pyReprFields fs ++ "\x7d"

/-- Comma-separated `repr`s of list elements. -/
def pyReprList : List Json → String
  | [] => ""
  | [x] => pyRepr x
  | x :: y :: xs => pyRepr x ++ ", " ++ pyReprList (y :: xs)

/-- Comma-separated `'key': repr(value)` pairs of a dict. -/
def pyReprFields : List (String × Json) → String
  | [] => ""
  | [(k, v)] => "'" ++ k ++ "': " ++ pyRepr v
  | (k, v) :: f :: fs => "'" ++ k ++ "': " ++ pyRepr v ++ ", " ++ pyReprFields (f :: fs)

end

/-- Python `str` of a JSON value, as Django's `CharField` coerces values on
save: strings stay themselves, other values render via `str`/`repr`. -/
def pyStr : Json → String
  | .str s => s
  | j => pyRepr j

/-! ### Dates (Python `datetime.date`) -/

/-- A calendar date; validity (`1 ≤ year ≤ 9999`, real month/day) is enforced
by the smart constructor `mkDate`, mirroring `datetime.date`'s range checks. -/
structure Date where
  year : Nat
  month : Nat
  day : Nat
deriving DecidableEq, Repr

/-- Gregorian leap-year rule, as in Python's `calendar.isleap`. -/
def isLeapYear (y : Nat) : Bool :=
  y % 4 == 0 && (y % 100 != 0 || y % 400 == 0)

/-- Number of days in a month of a given year. -/
def daysInMonth (y m : Nat) : Nat :=
  if m = 2 then (if isLeapYear y then 29 else 28)
  else if m = 4 ∨ m = 6 ∨ m = 9 ∨ m = 11 then 30
  else 31

/-- The `datetime.date(y, m, d)` constructor: `some` date when the components
are in range, `none` for the `ValueError` cases. -/
def mkDate (y : Int) (m d : Nat) : Option Date :=
  if 1 ≤ y ∧ y ≤ 9999 ∧ 1 ≤ m ∧ m ≤ 12 ∧ 1 ≤ d ∧ d ≤ daysInMonth y.toNat m then
    some ⟨y.toNat, m, d⟩
  else none

/-- Days in all years strictly before year `y` (proleptic Gregorian). -/
def daysBeforeYear (y : Nat) : Nat :=
  365 * (y - 1) + (y - 1) / 4 - (y - 1) / 100 + (y - 1) / 400

/-- Days in all months of year `y` strictly before month `m`. -/
def daysBeforeMonth (y m : Nat) : Nat :=
  (List.range (m - 1)).foldl (fun acc i => acc + daysInMonth y (i + 1)) 0

/-- Python's `date.toordinal`: day 1 is January 1 of year 1. -/
def Date.toOrdinal (d : Date) : Nat :=
  daysBeforeYear d.year + daysBeforeMonth d.year d.month + d.day

/-- Python's `datetime.date.min`, that is January 1 of year 1. -/
def dateMin : Date := ⟨1, 1, 1⟩

/-- Whitespace characters removed by Python's `str.strip`. -/
def isSpaceChar (c : Char) : Bool :=
  c == ' ' || c == '\t' || c == '\n' || c == '\r' || c == '\x0b' || c == '\x0c'

/-- Python `s.strip()`: removes leading and trailing whitespace. -/
def pyStrip (s : String) : String :=
  ⟨((s.data.dropWhile isSpaceChar).reverse.dropWhile isSpaceChar).reverse⟩

/-- Value of a list of decimal digit characters. -/
def digitsToNat (ds : List Char) : Nat :=
  ds.foldl (fun acc c => acc * 10 + (c.toNat - 48)) 0

/-- Python `int(s)` on an already-stripped string: an optional sign followed
by at least one decimal digit, `none` for the `ValueError` cases. -/
def pyInt (s : String) : Option Int :=
  match s.toList with
  | [] => none
  | '+' :: ds =>
    if ds ≠ [] ∧ ds.all (·.isDigit) then some (digitsToNat ds : Nat) else none
  | '-' :: ds =>
    if ds ≠ [] ∧ ds.all (·.isDigit) then some (-(digitsToNat ds : Nat) : Int) else none
  | ds =>
    if ds.all (·.isDigit) then some (digitsToNat ds : Nat) else none

/-- Python's `date.fromisoformat`: exactly `YYYY-MM-DD` with a valid
calendar date, `none` for the `ValueError` cases. -/
def dateFromIso (s : String) : Option Date :=
  match s.toList with
  | [y1, y2, y3, y4, c1, m1, m2, c2, d1, d2] =>
    if c1 = '-' ∧ c2 = '-' ∧ ([y1, y2, y3, y4, m1, m2, d1, d2].all (·.isDigit)) then
      mkDate (digitsToNat [y1, y2, y3, y4] : Nat) (digitsToNat [m1, m2])
        (digitsToNat [d1, d2])
    else none
  | _ => none

/-- Embeds `parse_partial_date` from `src/brief/utils.py`: empty or
whitespace-only input yields no date; after stripping, a 4-character value is
read as a year (January 1), a 7-character value as `YYYY-MM` (day 1), and
anything else as a full ISO date; every parse failure yields `none`. -/
def parsePartialDate (dateString : String) : Option Date :=
  if pyStrip dateString = "" then none
  else
    let s := pyStrip dateString
    if s.length = 4 then
      match pyInt s with
      | some y => mkDate y 1 1
      | none => none
    else if s.length = 7 then
      dateFromIso (s ++ "-01")
    else
      dateFromIso s

/-! ### Data model (`src/brief/models.py`) -/

/-- A persisted Trial row (the fields the pipeline reads and writes). -/
structure Trial where
  nctId : String
  title : String
  sponsor : String
  phase : String
  status : String
  startDate : Option Date
  url : String
deriving DecidableEq, Repr

/-- The Brief status enum: `generating`, `completed`, `failed`. -/
inductive BriefStatus where
  | generating
  | completed
  | failed
deriving DecidableEq, Repr

/-- The stored string value of a status, as in `Brief.STATUS_*`. -/
def BriefStatus.str : BriefStatus → String
  | .generating => "generating"
  | .completed => "completed"
  | .failed => "failed"

/-- The slice of the search transparency report the pipeline later reads
back: `get_search_transparency_report` stores more observability fields, but
only `query` (read by `refresh_brief`) and `total_results` are consulted
again, so only those are carried in the embedding.  `query` is an `Option`
because `search_metadata.get('query', ...)` tolerates its absence. -/
structure SearchReport where
  query : Option String
  totalResults : Nat
deriving DecidableEq, Repr

/-- A persisted Brief row together with its owned Trial set (cascade
relationship), restricted to the fields the pipeline reads and writes. -/
structure Brief where
  topic : String
  status : BriefStatus
  gptSummary : String
  searchMetadata : Option SearchReport
  trials : List Trial
deriving DecidableEq, Repr

/-- Python lower-casing of ASCII letters (`str.lower` on the fields at hand). -/
def pyLowerChar (c : Char) : Char :=
  if 'A' ≤ c ∧ c ≤ 'Z' then Char.ofNat (c.toNat + 32) else c

/-- Python `s.lower()` for ASCII content. -/
def pyLower (s : String) : String :=
  ⟨s.data.map pyLowerChar⟩

/-- Whether `needle` occurs inside `hay` (`needle in hay` in Python). -/
def containsSeq (needle : List Char) : List Char → Bool
  | [] => needle.isEmpty
  | c :: cs => needle.isPrefixOf (c :: cs) || containsSeq needle cs

/-- Embeds `Trial.is_active`: `'recruiting' in (status or '').lower()`. -/
def Trial.isActive (t : Trial) : Bool :=
  containsSeq "recruiting".data (pyLower t.status).data

/-- Embeds `Trial.sponsor_display`: the sponsor, or `N/A` when empty. -/
def Trial.sponsorDisplay (t : Trial) : String :=
  if t.sponsor = "" then "N/A" else t.sponsor

/-- Embeds `Trial.phase_display`: `N/A` when empty, else
`phase.replace('PHASE', 'Phase ').replace('_', '/')`. -/
def Trial.phaseDisplay (t : Trial) : String :=
  if t.phase = "" then "N/A" else (t.phase.replace "PHASE" "Phase ").replace "_" "/"

/-! ### Relevance selector (`AIAnalyzer._filter_relevant_trials`) -/

/-- The `phase_priority` dict: Phase 4 > 3 > 2 > 1, everything else scores 0
through `dict.get(phase, 0)`. -/
def phasePriority : List (String × ℚ) :=
  [("PHASE4", 4), ("PHASE3", 3), ("PHASE2", 2), ("PHASE1", 1)]

/-- Age in days of a start date (unknown start dates fall back to
`datetime.date.min`): `(timezone.now().date() - (start_date or date.min)).days`. -/
def daysOld (today : Date) (startDate : Option Date) : Int :=
  (today.toOrdinal : Int) - ((startDate.getD dateMin).toOrdinal : Int)

/-- The recency part of the score: `max(0, 365 - days_old) / 365`. -/
def recencyScore (today : Date) (startDate : Option Date) : ℚ :=
  ((max 0 (365 - daysOld today startDate) : Int) : ℚ) / 365

/-- The per-trial score: `phase_priority.get(phase, 0) + recency_score`. -/
def trialScore (today : Date) (t : Trial) : ℚ :=
  ((phasePriority.lookup t.phase).getD 0) + recencyScore today t.startDate

/-- Descending-score order on trials: the sort key relation of
`sorted(trials, key=trial_score, reverse=True)`. -/
def scoreGE (today : Date) (a b : Trial) : Prop :=
  trialScore today b ≤ trialScore today a

instance (today : Date) : DecidableRel (scoreGE today) := fun a b =>
  inferInstanceAs (Decidable (trialScore today b ≤ trialScore today a))

instance (today : Date) : IsTotal Trial (scoreGE today) :=
  ⟨fun a b => le_total (trialScore today b) (trialScore today a)⟩

instance (today : Date) : IsTrans Trial (scoreGE today) :=
  ⟨fun _ _ _ hab hbc => le_trans hbc hab⟩

/-- Embeds `_filter_relevant_trials`: stable sort by descending score, then
keep the top 50 (Python's `sorted` is stable, and `reverse=True` preserves
the relative order of equal keys; `List.insertionSort` with the reflexive
descending relation realises exactly that order). -/
def filterRelevantTrials (today : Date) (trials : List Trial) : List Trial :=
  (List.insertionSort (scoreGE today) trials).take 50

/-! ### Narrative analyzer (`AIAnalyzer`) -/

/-- Zero-padded two-digit rendering. -/
def pad2 (n : Nat) : String :=
  if n < 10 then "0" ++ toString n else toString n

/-- Zero-padded four-digit rendering. -/
def pad4 (n : Nat) : String :=
  if n < 10 then "000" ++ toString n
  else if n < 100 then "00" ++ toString n
  else if n < 1000 then "0" ++ toString n
  else toString n

/-- Python `str(date)`: ISO `YYYY-MM-DD`. -/
def Date.iso (d : Date) : String :=
  pad4 d.year ++ "-" ++ pad2 d.month ++ "-" ++ pad2 d.day

/-- English month names for `strftime('%B ...')`. -/
def monthName : Nat → String
  | 1 => "January" | 2 => "February" | 3 => "March" | 4 => "April"
  | 5 => "May" | 6 => "June" | 7 => "July" | 8 => "August"
  | 9 => "September" | 10 => "October" | 11 => "November" | 12 => "December"
  | _ => ""

/-- Python `strftime('%B %d, %Y')`. -/
def Date.longFormat (d : Date) : String :=
  monthName d.month ++ " " ++ pad2 d.day ++ ", " ++ toString d.year

/-- One line of `_format_trials_for_analysis`'s trial-details block. -/
def trialLine (t : Trial) : String :=
  t.nctId ++ ": " ++ t.title ++ " | Sponsor: " ++ t.sponsorDisplay ++
    " | Phase: " ++ t.phaseDisplay ++ " | Status: " ++
    (if t.status = "" then "N/A" else t.status) ++ " | Start: " ++
    (match t.startDate with | some d => d.iso | none => "N/A")

/-- Count of a given phase code among the non-empty phases of a trial list. -/
def phaseCount (trials : List Trial) (p : String) : Nat :=
  (((trials.map Trial.phase).filter (fun s => s ≠ "")).filter (fun s => s = p)).length

/-- Embeds `_format_trials_for_analysis`: the pipeline-overview header with
phase-distribution counts followed by one line per trial. -/
def formatTrialsForAnalysis (trials : List Trial) : String :=
  String.intercalate "\n"
    (["=== PIPELINE OVERVIEW ===",
      "Total Trials: " ++ toString trials.length,
      "Phase Distribution: Phase 1: " ++ toString (phaseCount trials "PHASE1") ++
        ", Phase 2: " ++ toString (phaseCount trials "PHASE2") ++
        ", Phase 3: " ++ toString (phaseCount trials "PHASE3") ++
        ", Phase 4: " ++ toString (phaseCount trials "PHASE4"),
      "",
      "=== TRIAL DETAILS ==="] ++ trials.map trialLine)

/-- Embeds `_build_analysis_prompt`: the fixed analytical prompt template. -/
def buildAnalysisPrompt (topic trialText : String) : String :=
  "You are an expert in clinical development and market access.\n\n" ++
  "Based on these clinical trials for '" ++ topic ++
  "', provide a comprehensive analysis including:\n\n" ++
  "1. **Market Landscape Overview**: Current development trends, pipeline maturity, and key patterns\n" ++
  "2. **Development Phases & Timeline**: Phase distribution analysis with realistic development timelines\n" ++
  "3. **Key Players & Sponsor Activity**: Major sponsors, their focus areas, and competitive positioning  \n" ++
  "4. **Technology & Mechanism Analysis**: Group interventions by mechanism of action or therapeutic approach\n" ++
  "5. **Development Patterns**: Common trial designs, target populations, and regulatory approaches\n" ++
  "6. **Pipeline Gaps & Opportunities**: Underserved areas, emerging approaches, and development opportunities\n\n" ++
  "Clinical Trial Data:\n" ++ trialText ++ "\n\n" ++
  "Provide actionable insights for clinical development, focusing on pipeline intelligence, development timelines, and therapeutic opportunities.\n"

/-- Lexicographic char-code comparison backing Python's `sorted` on strings. -/
def charListLe : List Char → List Char → Bool
  | [], _ => true
  | _ :: _, [] => false
  | c :: cs, d :: ds => if c == d then charListLe cs ds else decide (c < d)

/-- Python `sorted` over strings (ascending code-point order). -/
def sortStrings (l : List String) : List String :=
  List.insertionSort (fun a b => charListLe a.data b.data = true) l

/-- The aggregate statistics `_generate_demo_analysis` computes locally over
the trial list it receives: total count, the set of non-empty phases, the
set of non-empty sponsors, and the recruiting trials.  Python's `set` has no
specified iteration order; the embedding keeps last-occurrence order via
`dedup`, which fixes the counts exactly and the rendered order up to the
set-iteration ambiguity. -/
structure DemoStats where
  trialCount : Nat
  phases : List String
  sponsors : List String
  activeCount : Nat
deriving DecidableEq, Repr

/-- Computes `_generate_demo_analysis`'s statistics over a trial list. -/
def demoStats (trials : List Trial) : DemoStats :=
  { trialCount := trials.length
    phases := ((trials.map Trial.phase).filter (fun s => s ≠ "")).dedup
    sponsors := ((trials.map Trial.sponsor).filter (fun s => s ≠ "")).dedup
    activeCount := (trials.filter (fun t => t.isActive)).length }

/-- Embeds the templated narrative of `_generate_demo_analysis`. -/
def renderDemoAnalysis (today : Date) (topic : String) (st : DemoStats) : String :=
  "# Clinical Trial Analysis for " ++ topic ++ "\n\n" ++
  "**Note: This is a demo analysis generated without AI. Configure OPENAI_API_KEY for full AI-powered insights.**\n\n" ++
  "## Market Landscape Overview\n" ++
  "The " ++ topic ++ " therapeutic area shows significant clinical activity with **" ++
  toString st.trialCount ++
  " trials** identified in our analysis. This indicates a highly active research environment with substantial pharmaceutical interest.\n\n" ++
  "## Trial Distribution\n" ++
  "- **Total Trials**: " ++ toString st.trialCount ++ "\n" ++
  "- **Active/Recruiting Trials**: " ++ toString st.activeCount ++ "\n" ++
  "- **Unique Sponsors**: " ++ toString st.sponsors.length ++ "\n" ++
  "- **Phase Distribution**: " ++
  (if st.phases.isEmpty then "Mixed phases"
   else String.intercalate ", " (sortStrings st.phases)) ++ "\n\n" ++
  "## Key Sponsors\n" ++
  (if st.sponsors.isEmpty then "Sponsor information is being processed."
   else "The top sponsors include: " ++ String.intercalate ", " (st.sponsors.take 5) ++ ".") ++
  "\n\n## Development Trends\n" ++
  "Based on the trial data, " ++ topic ++ " research appears to focus on " ++
  (if st.activeCount ≠ 0 then "recruiting new patients" else "various study phases") ++
  " with a diverse portfolio of approaches from multiple pharmaceutical companies.\n\n" ++
  "## Strategic Opportunities\n" ++
  "The high level of activity in this space suggests strong market interest and potential for innovative therapeutic approaches. " ++
  (if st.activeCount ≠ 0 then "Multiple active trials indicate ongoing recruitment opportunities."
   else "The completion of trials may indicate upcoming data readouts.") ++
  "\n\n## Next Steps\n" ++
  "For detailed competitive intelligence and market access strategies, please configure your OpenAI API key to enable full AI-powered analysis.\n\n" ++
  "---\n" ++
  "*Demo analysis generated on " ++ today.longFormat ++ "*"

/-- The environment a generate/refresh run draws on: the registry client
outcome for a query, the analyzer mode chosen at construction, the outcome
of the external completion call for a prompt, and the current date. -/
structure OrchEnv where
  searchStudies : String → Except String (List Json)
  demoMode : Bool
  liveCompletion : String → Except String String
  today : Date

/-- Embeds `AIAnalyzer.analyze_trials`: canned answer on an empty list, demo
narrative in demo mode, otherwise select-format-prompt and call the external
completion, whose failure raises an analyzer error. -/
def analyzeTrials (env : OrchEnv) (topic : String) (trials : List Trial) :
    Except String String :=
  if trials.isEmpty then .ok "No clinical trials found for analysis."
  else if env.demoMode then .ok (renderDemoAnalysis env.today topic (demoStats trials))
  else
    let relevantTrials := filterRelevantTrials env.today trials
    let trialText := formatTrialsForAnalysis relevantTrials
    let prompt := buildAnalysisPrompt topic trialText
    match env.liveCompletion prompt with
    | .ok content => .ok (pyStrip content)
    | .error e => .error ("Failed to generate AI analysis: " ++ e)

/-! ### Record normalizer (`create_trial_from_study`) -/

/-- Python `phases[0] if phases else ""`: a falsy value yields the empty
phase, a non-empty list yields its first element (string-coerced on save), a
non-empty string yields its first character, and subscripting any other
truthy value raises. -/
def firstPhase : Json → Except PyError String
  | .arr [] => .ok ""
  | .arr (x :: _) => .ok (pyStr x)
  | .str s =>
    match s.data with
    | [] => .ok ""
    | c :: _ => .ok (String.singleton c)
  | .null => .ok ""
  | .bool false => .ok ""
  | .bool true => .error .typeError
  | .num n => if n = 0 then .ok "" else .error .typeError
  | .obj [] => .ok ""
  | .obj (_ :: _) => .error .typeError

/-- `parse_partial_date` applied to a raw JSON field: a string parses as a
partial date, any other falsy value short-circuits to no date, and calling
`.strip()` on a truthy non-string raises `AttributeError`. -/
def parsePartialDateJson : Json → Except PyError (Option Date)
  | .str s => .ok (parsePartialDate s)
  | j => if j.truthy then .error .attributeError else .ok none

/-- The extraction chain up to the NCT identifier, exactly as
`create_trial_from_study` reaches it. -/
def extractNctId (studyData : Json) : Except PyError Json := do
  let protocol ← studyData.get "protocolSection" (.obj [])
  let identification ← protocol.get "identificationModule" (.obj [])
  identification.get "nctId" (.str "")

/-- Embeds the body of `create_trial_from_study` before its `except` guard:
`ok none` is the skip of a record without a truthy NCT id, an `error` is a
structural extraction failure the guard will absorb. -/
def createTrialFromStudyE (studyData : Json) : Except PyError (Option Trial) := do
  let protocol ← studyData.get "protocolSection" (.obj [])
  let identification ← protocol.get "identificationModule" (.obj [])
  let statusModule ← protocol.get "statusModule" (.obj [])
  let sponsorModule ← protocol.get "sponsorCollaboratorsModule" (.obj [])
  let designModule ← protocol.get "designModule" (.obj [])
  let nctId ← identification.get "nctId" (.str "")
  if !nctId.truthy then
    return none
  let title ← identification.get "briefTitle" (.str "")
  let leadSponsor ← sponsorModule.get "leadSponsor" (.obj [])
  let sponsor ← leadSponsor.get "name" (.str "")
  let phases ← designModule.get "phases" (.arr [])
  let phase ← firstPhase phases
  let status ← statusModule.get "overallStatus" (.str "")
  let dateStruct ← statusModule.get "startDateStruct" (.obj [])
  let startDateRaw ← dateStruct.get "date" (.str "")
  let startDate ← parsePartialDateJson startDateRaw
  return some
    { nctId := pyStr nctId
      title := pyStr title
      sponsor := pyStr sponsor
      phase := phase
      status := pyStr status
      startDate := startDate
      url := "https://clinicaltrials.gov/study/" ++ pyStr nctId }

/-- Embeds `create_trial_from_study`: any extraction error drops the record
(the `except Exception: return None` guard), a record without a truthy NCT
id is skipped, everything else becomes a persisted Trial. -/
def createTrialFromStudy (studyData : Json) : Option Trial :=
  match createTrialFromStudyE studyData with
  | .ok t => t
  | .error _ => none

/-! ### Search-analysis traversals (`_log_search_analysis`,
`get_search_transparency_report`)

Both helpers re-traverse raw records with unguarded dictionary access and
string operations, so a malformed record makes them raise; the exceptions
escape into `search_studies`'s per-page `try` (the log) and into
`generate_brief`/`refresh_brief` (the report). -/

/-- Python `str(e)` of a dynamic error; the interpreter's message text is
abstracted to the exception class name. -/
def PyError.pyMsg : PyError → String
  | .attributeError => "AttributeError"
  | .typeError => "TypeError"

/-- Python `s.split()`: whitespace-separated words, empty runs collapsed. -/
def splitWordsAux : List Char → List Char → List String
  | [], acc => if acc.isEmpty then [] else [⟨acc.reverse⟩]
  | c :: cs, acc =>
    if isSpaceChar c then
      if acc.isEmpty then splitWordsAux cs []
      else ⟨acc.reverse⟩ :: splitWordsAux cs []
    else splitWordsAux cs (c :: acc)

/-- Python `s.split()` on a string. -/
def splitWords (s : String) : List String :=
  splitWordsAux s.data []

/-- Python `x.lower()` on a raw JSON field: only strings have `.lower`,
anything else raises `AttributeError`. -/
def pyLowerJson : Json → Except PyError String
  | .str s => .ok (pyLower s)
  | _ => .error .attributeError

/-- Python `any(word in x.lower() for word in words)`: the generator body —
and with it `x.lower()` — is never evaluated when `words` is empty. -/
def anyWordIn (words : List String) (x : Json) : Except PyError Bool :=
  match words with
  | [] => .ok false
  | _ =>
    match pyLowerJson x with
    | .ok s => .ok (words.any fun w => containsSeq w.data s.data)
    | .error e => .error e

/-- All-strings view of a list of JSON values, when it exists. -/
def allStrings : List Json → Option (List String)
  | [] => some []
  | .str s :: xs => (allStrings xs).map (s :: ·)
  | _ => none

/-- Python `" ".join(x)`: a list joins its elements, which must all be
strings; a string joins its characters; a dict joins its keys; anything
else raises `TypeError`. -/
def pyJoinSpace : Json → Except PyError String
  | .arr xs =>
    match allStrings xs with
    | some ss => .ok (String.intercalate " " ss)
    | none => .error .typeError
  | .str s => .ok (String.intercalate " " (s.data.map String.singleton))
  | .obj fs => .ok (String.intercalate " " (fs.map (·.1)))
  | _ => .error .typeError

/-- The `intervention.get("name", "")` accumulation over the raw
`interventions` field: iterating a non-iterable raises `TypeError`;
iterating a non-empty string or dict yields strings, whose `.get` raises
`AttributeError`; a list's elements must each be a dict. -/
def interventionNames : Json → Except PyError (List Json)
  | .arr xs => xs.mapM (fun iv => iv.get "name" (.str ""))
  | .str s =>
    match s.data with
    | [] => .ok []
    | _ :: _ => .error .attributeError
  | .obj fs =>
    match fs with
    | [] => .ok []
    | _ :: _ => .error .attributeError
  | _ => .error .typeError

/-- Python `" ".join(names)` over the accumulated name values, which must
all be strings. -/
def joinNames (names : List Json) : Except PyError String :=
  match allStrings names with
  | some ss => .ok (String.intercalate " " ss)
  | none => .error .typeError

/-- Python `x[:n]`: strings and lists slice, other values raise `TypeError`. -/
def pySliceOk : Json → Except PyError Unit
  | .str _ => .ok ()
  | .arr _ => .ok ()
  | _ => .error .typeError

/-- Python `len(x)`: strings, lists and dicts have a length, other values
raise `TypeError`. -/
def pyLen : Json → Except PyError Nat
  | .str s => .ok s.length
  | .arr xs => .ok xs.length
  | .obj fs => .ok fs.length
  | _ => .error .typeError

/-- One record of `_log_search_analysis`'s traversal, with its fallible
operations in source order: the module `.get` chain, the per-field word
matching, the condition/intervention joins, and the title and condition
slicing in the log lines. -/
def logAnalysisRecord (words : List String) (study : Json) : Except PyError Unit := do
  let protocol ← study.get "protocolSection" (.obj [])
  let identification ← protocol.get "identificationModule" (.obj [])
  let description ← protocol.get "descriptionModule" (.obj [])
  let conditions ← protocol.get "conditionsModule" (.obj [])
  let interventions ← protocol.get "armsInterventionsModule" (.obj [])
  let _nctId ← identification.get "nctId" (.str "")
  let title ← identification.get "briefTitle" (.str "")
  let summary ← description.get "briefSummary" (.str "")
  let conditionList ← conditions.get "conditions" (.arr [])
  let interventionList ← interventions.get "interventions" (.arr [])
  let _ ← anyWordIn words title
  let _ ← pyJoinSpace conditionList
  let names ← interventionNames interventionList
  let _ ← joinNames names
  let _ ← anyWordIn words summary
  let _ ← pySliceOk title
  if conditionList.truthy then
    let _ ← pySliceOk conditionList
    pure ()
  else
    pure ()

/-- Embeds `_log_search_analysis`: early return on an empty sample, else the
unguarded traversal of each sampled record in order. -/
def logSearchAnalysis (query : String) (sampleStudies : List Json) : Except PyError Unit :=
  if sampleStudies.isEmpty then .ok ()
  else
    let words := splitWords (pyLower query)
    sampleStudies.foldlM (fun _ study => logAnalysisRecord words study) ()

/-- One record of `get_search_transparency_report`'s sample traversal, with
its fallible operations in source order: the module `.get` chain, the
`len(title)` check with its long-title truncation (which concatenates a
slice with a string, so only an actual string survives it), the per-field
word matching and the joins. -/
def reportRecord (words : List String) (study : Json) : Except PyError Unit := do
  let protocol ← study.get "protocolSection" (.obj [])
  let identification ← protocol.get "identificationModule" (.obj [])
  let description ← protocol.get "descriptionModule" (.obj [])
  let conditions ← protocol.get "conditionsModule" (.obj [])
  let interventions ← protocol.get "armsInterventionsModule" (.obj [])
  let _nctId ← identification.get "nctId" (.str "")
  let title ← identification.get "briefTitle" (.str "")
  let summary ← description.get "briefSummary" (.str "")
  let conditionList ← conditions.get "conditions" (.arr [])
  let interventionList ← interventions.get "interventions" (.arr [])
  let n ← pyLen title
  let _ ←
    if 150 < n then
      match title with
      | .str _ => Except.ok ()
      | _ => Except.error PyError.typeError
    else
      Except.ok ()
  let _ ← anyWordIn words title
  let _ ← pyJoinSpace conditionList
  let names ← interventionNames interventionList
  let _ ← joinNames names
  let _ ← anyWordIn words summary
  pure ()

/-! ### Brief orchestrator (`generate_brief`, `refresh_brief`) -/

/-- The exception taxonomy the orchestrator re-raises: the refresh guard's
`ValueError`, the registry client's error, the analyzer's error, and a raw
Python exception escaping the transparency report's record traversal. -/
inductive PipeError where
  | stateError (msg : String)
  | apiError (msg : String)
  | aiError (msg : String)
  | pyError (e : PyError)
deriving DecidableEq, Repr

/-- Python `str(e)` of a pipeline exception. -/
def PipeError.msg : PipeError → String
  | .stateError m => m
  | .apiError m => m
  | .aiError m => m
  | .pyError e => e.pyMsg

/-- Embeds `get_search_transparency_report`'s report construction after its
own fetch: the query and result count are stored (the fields the pipeline
reads back later; the per-field percentages are observability-only), but the
field analysis first re-traverses the first `maxSamples` raw records with
unguarded access, so one malformed sampled record raises out of the report —
and out of `generate_brief`/`refresh_brief`, which call it before any Trial
is created.  An empty sample returns the bare report untraversed. -/
def buildTransparencyReport (query : String) (studies : List Json) (maxSamples : Nat) :
    Except PyError SearchReport :=
  let sampleStudies := studies.take maxSamples
  if sampleStudies.isEmpty then .ok { query := some query, totalResults := studies.length }
  else
    let words := splitWords (pyLower query)
    match sampleStudies.foldlM (fun _ study => reportRecord words study) () with
    | .ok _ => .ok { query := some query, totalResults := studies.length }
    | .error e => .error e

/-- The canned summary stored when a generation run finds no trials. -/
def noTrialsSummary (topic : String) : String :=
  "No clinical trials found for '" ++ topic ++
    "'. This may indicate a very specialized or emerging therapeutic area."

/-- The shared body of steps 1-4 of `generate_brief` and `refresh_brief`:
fetch studies, build the transparency report (which re-runs the search and
re-traverses the first 15 raw records, so it can itself raise), persist the
report, normalize each record into a Trial, then analyze (or store the
canned no-trials summary) and mark the Brief completed.  On failure the
error is returned with the Brief state already persisted at that point,
which is what the Python exception handlers go on to save. -/
def runPipelineSteps (env : OrchEnv) (searchTerm : String) (brief : Brief) :
    Except (PipeError × Brief) Brief :=
  match env.searchStudies searchTerm with
  | .error e => .error (.apiError e, brief)
  | .ok studies =>
    match env.searchStudies searchTerm with
    | .error e => .error (.apiError e, brief)
    | .ok reportStudies =>
      match buildTransparencyReport searchTerm reportStudies 15 with
      | .error e => .error (.pyError e, brief)
      | .ok report =>
        let b1 : Brief := { brief with searchMetadata := some report }
        let b2 : Brief :=
          { b1 with trials := b1.trials ++ studies.filterMap createTrialFromStudy }
        if b2.trials.isEmpty then
          .ok { b2 with gptSummary := noTrialsSummary brief.topic, status := .completed }
        else
          match analyzeTrials env brief.topic b2.trials with
          | .error e => .error (.aiError e, b2)
          | .ok summary => .ok { b2 with gptSummary := summary, status := .completed }

/-- The row `generate_brief` persists first: a Brief in `Generating` with
`topic = display_topic or search_term` under Python truthiness (an empty or
absent display topic falls back to the search term). -/
def initialBrief (searchTerm : String) (displayTopic : Option String) : Brief :=
  let topicForDisplay :=
    match displayTopic with
    | some t => if t = "" then searchTerm else t
    | none => searchTerm
  { topic := topicForDisplay, status := .generating, gptSummary := "",
    searchMetadata := none, trials := [] }

/-- Embeds `generate_brief`: create the Brief in `Generating`, run the
pipeline, and on any exception persist status `Failed` with the error
message as summary and re-raise (the returned `Option PipeError` is the
re-raised exception). -/
def generateBrief (env : OrchEnv) (searchTerm : String) (displayTopic : Option String) :
    Brief × Option PipeError :=
  match runPipelineSteps env searchTerm (initialBrief searchTerm displayTopic) with
  | .ok b => (b, none)
  | .error (e, bp) =>
    ({ bp with status := .failed, gptSummary := "Brief generation failed: " ++ e.msg },
      some e)

/-- Modelled from the spec: `Brief.can_be_refreshed` is called by
`refresh_brief` but its definition is not among the source files under
review; the spec states that a Brief is refreshable only when its current
status is Completed or Failed (never while Generating). -/
def canBeRefreshed (b : Brief) : Bool :=
  b.status == .completed || b.status == .failed

/-- The search term a refresh re-uses: the stored `search_metadata['query']`
when present, else the Brief's topic. -/
def refreshSearchTerm (brief : Brief) : String :=
  match brief.searchMetadata with
  | some md => md.query.getD brief.topic
  | none => brief.topic

/-- Embeds `refresh_brief`: refuse (raising a state error, mutating nothing)
unless `can_be_refreshed`; otherwise remember the original status, re-enter
`Generating`, delete the existing Trials, re-run the pipeline on the stored
query (or the topic), and on failure restore the original status and
re-raise. -/
def refreshBrief (env : OrchEnv) (brief : Brief) : Brief × Option PipeError :=
  if !canBeRefreshed brief then
    (brief,
      some (.stateError ("Brief cannot be refreshed (status: " ++ brief.status.str ++ ")")))
  else
    let originalStatus := brief.status
    let b1 : Brief := { brief with status := .generating }
    let b2 : Brief := { b1 with trials := [] }
    match runPipelineSteps env (refreshSearchTerm brief) b2 with
    | .ok b => (b, none)
    | .error (e, bp) => ({ bp with status := originalStatus }, some e)

/-- The Trial set a pipeline run leaves behind on a Brief whose Trials were
empty at entry: the record-wise normalization of the fetched studies once
the fetch and the transparency report both succeeded, and nothing at all
when either step failed, since both run before any Trial is created. -/
def pipelineTrials (env : OrchEnv) (q : String) : List Trial :=
  match env.searchStudies q with
  | .error _ => []
  | .ok studies =>
    match buildTransparencyReport q studies 15 with
    | .error _ => []
    | .ok _ => studies.filterMap createTrialFromStudy

/-- The Trial set a refresh leaves behind: the fresh normalization of the
re-fetched studies when the fetch and the report succeeded, or nothing at
all when either failed (the old Trials are deleted before the fetch and
never restored). -/
def freshTrials (env : OrchEnv) (brief : Brief) : List Trial :=
  pipelineTrials env (refreshSearchTerm brief)

/-! ### Registry client (`ClinicalTrialsAPI`) -/

/-- One parsed page of the registry response:
`\x7b studies: [...], nextPageToken?: string \x7d`. -/
structure Page where
  studies : List Json
  nextPageToken : Option String

/-- The trace of one `_make_request` call: its outcome, the backoff sleeps
performed (in seconds), and the number of HTTP attempts made. -/
structure ReqTrace where
  result : Except String Page
  sleeps : List Nat
  calls : Nat

/-- Embeds `_make_request`'s `for attempt in range(max_retries)` loop;
`fuel` counts the remaining iterations (call sites pass
`fuel = max_retries`).  A failed non-final attempt sleeps `2 ** attempt`
seconds and retries; the final attempt's failure raises a registry error. -/
def makeRequestGo (attemptResult : Nat → Except String Page) (maxRetries : Nat) :
    Nat → Nat → ReqTrace
  | 0, _ => ⟨.error "no attempts made", [], 0⟩
  | fuel + 1, attempt =>
    match attemptResult attempt with
    | .ok r => ⟨.ok r, [], 1⟩
    | .error e =>
      if attempt = maxRetries - 1 then ⟨.error ("Request failed: " ++ e), [], 1⟩
      else
        let t := makeRequestGo attemptResult maxRetries fuel (attempt + 1)
        ⟨t.result, 2 ^ attempt :: t.sleeps, t.calls + 1⟩

/-- `_make_request` with its default `max_retries = 3`. -/
def makeRequest (attemptResult : Nat → Except String Page) : ReqTrace :=
  makeRequestGo attemptResult 3 3 0

/-- The trace of one `search_studies` call: its outcome and the number of
page requests issued. -/
structure SearchTrace where
  result : Except String (List Json)
  pagesRequested : Nat

/-- Embeds `search_studies`'s `while page_count < max_pages` loop over a
network oracle `net` (`net i a` is the outcome of HTTP attempt `a` of page
request `i`); `fuel` counts the remaining iterations (call sites pass
`fuel = max_pages = 5`, and `page_count` equals the number of page requests
already issued).  Per iteration, in source order: fetch the page with
retries, stop on an empty page, on the first page run
`_log_search_analysis` over the first five records — still inside the
per-page `try`, so a malformed sampled record's exception is caught by the
same handler and, being on page 0, raises the registry error — then append,
stop on a missing or falsy continuation token, and stop once the configured
maximum result count is reached.  A fetch failure on the first page raises;
on a later page it returns the accumulated studies. -/
def searchStudiesGo (query : String) (net : Nat → Nat → Except String Page)
    (maxResults : Nat) : Nat → Nat → List Json → SearchTrace
  | 0, pageCount, acc => ⟨.ok acc, pageCount⟩
  | fuel + 1, pageCount, acc =>
    match (makeRequest (net pageCount)).result with
    | .error e =>
      if pageCount = 0 then ⟨.error ("Failed to fetch clinical trials: " ++ e), 1⟩
      else ⟨.ok acc, pageCount + 1⟩
    | .ok page =>
      if page.studies.isEmpty then ⟨.ok acc, pageCount + 1⟩
      else
        match
          (if pageCount = 0 then logSearchAnalysis query (page.studies.take 5)
           else .ok ()) with
        | .error e =>
          if pageCount = 0 then
            ⟨.error ("Failed to fetch clinical trials: " ++ e.pyMsg), 1⟩
          else ⟨.ok acc, pageCount + 1⟩
        | .ok _ =>
          let acc2 := acc ++ page.studies
          match page.nextPageToken with
          | none => ⟨.ok acc2, pageCount + 1⟩
          | some tok =>
            if tok = "" then ⟨.ok acc2, pageCount + 1⟩
            else if maxResults ≤ acc2.length then ⟨.ok acc2, pageCount + 1⟩
            else searchStudiesGo query net maxResults fuel (pageCount + 1) acc2

/-- Embeds `ClinicalTrialsAPI.search_studies` with its `max_pages = 5`. -/
def searchStudies (query : String) (net : Nat → Nat → Except String Page)
    (maxResults : Nat) : SearchTrace :=
  searchStudiesGo query net maxResults 5 0 []

/-! ### Concrete fixtures used by witnesses and counterexamples -/

/-- A sample persisted Trial. -/
def sampleTrial : Trial :=
  { nctId := "NCT00000001", title := "T", sponsor := "S", phase := "PHASE1",
    status := "Recruiting", startDate := none,
    url := "https://clinicaltrials.gov/study/NCT00000001" }

/-- An environment whose registry fetch always fails (demo-mode analyzer). -/
def failingEnv : OrchEnv :=
  { searchStudies := fun _ => .error "boom", demoMode := true,
    liveCompletion := fun _ => .ok "", today := ⟨2026, 10, 12⟩ }

/-- A Completed Brief owning one Trial. -/
def completedBrief : Brief :=
  { topic := "glioma", status := .completed, gptSummary := "old summary",
    searchMetadata := none, trials := [sampleTrial] }

/-! ### Theorems -/

/-- Helper: a successful parse in the 7-character branch pins the day to 1,
because the source appends the literal `-01` before parsing. -/
theorem dateFromIso_append01_day (l : List Char) (h : l.length = 7) (d : Date)
    (hp : dateFromIso (String.mk l ++ "-01") = some d) : d.day = 1 := by
  rcases l with _ | ⟨a1, l⟩
  · simp at h
  rcases l with _ | ⟨a2, l⟩
  · simp at h
  rcases l with _ | ⟨a3, l⟩
  · simp at h
  rcases l with _ | ⟨a4, l⟩
  · simp at h
  rcases l with _ | ⟨a5, l⟩
  · simp at h
  rcases l with _ | ⟨a6, l⟩
  · simp at h
  rcases l with _ | ⟨a7, l⟩
  · simp at h
  rcases l with _ | ⟨a8, l⟩
  · have hl : (String.mk [a1, a2, a3, a4, a5, a6, a7] ++ "-01").toList =
        [a1, a2, a3, a4, a5, a6, a7, '-', '0', '1'] := rfl
    unfold dateFromIso at hp
    rw [hl] at hp
    simp only [] at hp
    split at hp
    · unfold mkDate at hp
      split at hp
      · simp only [Option.some.injEq] at hp
        rw [← hp]
        rfl
      · simp at hp
    · simp at hp
  · simp at h

/-- C8: `parse_partial_date` maps every (stripped) 4-character value that
parses to January 1 of the parsed year, every 7-character value that parses
to the first day of its month, any other non-empty value through full ISO
parsing, and empty input to no date; the embedding is a total function, so
no exception escapes.  Concrete instances pin the three formats and an
unparseable input. -/
theorem parsePartialDate_spec :
    (∀ s d, (pyStrip s).length = 4 → parsePartialDate s = some d →
      d.month = 1 ∧ d.day = 1 ∧ pyInt (pyStrip s) = some (d.year : Int)) ∧
    (∀ s d, (pyStrip s).length = 7 → parsePartialDate s = some d → d.day = 1) ∧
    (∀ s, (pyStrip s).length ≠ 4 → (pyStrip s).length ≠ 7 → pyStrip s ≠ "" →
      parsePartialDate s = dateFromIso (pyStrip s)) ∧
    (∀ s, pyStrip s = "" → parsePartialDate s = none) ∧
    parsePartialDate "2020" = some ⟨2020, 1, 1⟩ ∧
    parsePartialDate "2020-05" = some ⟨2020, 5, 1⟩ ∧
    parsePartialDate "2021-03-15" = some ⟨2021, 3, 15⟩ ∧
    parsePartialDate "not-a-date" = none := by
  refine ⟨?_, ?_, ?_, ?_, by decide, by decide, by decide, by decide⟩
  · intro s d h4 hp
    have hne : pyStrip s ≠ "" := by
      intro h
      rw [h] at h4
      simp at h4
    simp only [parsePartialDate, hne, if_false, if_neg, h4, if_true, if_pos] at hp
    cases hpi : pyInt (pyStrip s) with
    | none => rw [hpi] at hp; simp at hp
    | some y =>
      rw [hpi] at hp
      simp only [mkDate] at hp
      split at hp
      · rename_i hcond
        simp only [Option.some.injEq] at hp
        subst hp
        refine ⟨rfl, rfl, ?_⟩
        have hy : ((y.toNat : Int)) = y := Int.toNat_of_nonneg (by linarith [hcond.1])
        show some y = some ((y.toNat : Int))
        rw [hy]
      · simp at hp
  · intro s d h7 hp
    have hne : pyStrip s ≠ "" := by
      intro h
      rw [h] at h7
      simp at h7
    have h47 : (pyStrip s).length ≠ 4 := by omega
    simp only [parsePartialDate, hne, if_false, if_neg, h47, h7, if_true, if_pos] at hp
    have hlen : (pyStrip s).data.length = 7 := h7
    have hmk : String.mk (pyStrip s).data = pyStrip s := rfl
    exact dateFromIso_append01_day (pyStrip s).data hlen d (by rw [hmk]; exact hp)
  · intro s h4 h7 hne
    simp only [parsePartialDate, hne, if_false, if_neg, h4, h7]
  · intro s h
    simp only [parsePartialDate, h, if_true, if_pos]

/-- C8 witness: the general clauses applied at concrete inputs. -/
theorem parsePartialDate_spec_witness :
    ((⟨1999, 1, 1⟩ : Date).month = 1 ∧ (⟨1999, 1, 1⟩ : Date).day = 1 ∧
      pyInt (pyStrip " 1999 ") = some ((⟨1999, 1, 1⟩ : Date).year : Int)) ∧
    (⟨2023, 7, 1⟩ : Date).day = 1 ∧
    parsePartialDate "2021-03-15" = dateFromIso (pyStrip "2021-03-15") ∧
    parsePartialDate "   " = none :=
  ⟨parsePartialDate_spec.1 " 1999 " ⟨1999, 1, 1⟩ (by decide) (by decide),
    parsePartialDate_spec.2.1 "2023-07" ⟨2023, 7, 1⟩ (by decide) (by decide),
    parsePartialDate_spec.2.2.1 "2021-03-15" (by decide) (by decide) (by decide),
    parsePartialDate_spec.2.2.2.1 "   " (by decide)⟩

/-- C6 counterexample: a trial whose start date is one day in the future has
recency weight `366/365 > 1` — the code clamps the weight below at 0 but not
above at 1, so the claimed clamp to `[0, 1]` fails. -/
theorem recencyScore_exceeds_one :
    1 < recencyScore ⟨2026, 10, 12⟩ (some ⟨2026, 10, 13⟩) := by
  have h : daysOld ⟨2026, 10, 12⟩ (some ⟨2026, 10, 13⟩) = -1 := by decide
  rw [recencyScore, h]
  norm_num

/-- C6 (amended): the recency weight is a linear 365-day decay clamped below
at 0; it is at most 1 whenever the start date is not in the future; a trial
a year or more old scores 0; and an unknown start date (treated as
`date.min`) scores 0 for any current date from year 2 on.  A future start
date, however, yields a weight strictly above 1 (see the counterexample). -/
theorem recencyScore_clamped_below (today : Date) (sd : Option Date) :
    0 ≤ recencyScore today sd ∧
    (∀ d, sd = some d → d.toOrdinal ≤ today.toOrdinal → recencyScore today sd ≤ 1) ∧
    (365 ≤ daysOld today sd → recencyScore today sd = 0) ∧
    (sd = none → 366 ≤ today.toOrdinal → recencyScore today sd = 0) := by
  refine ⟨?_, ?_, ?_, ?_⟩
  · unfold recencyScore
    apply div_nonneg _ (by norm_num)
    exact_mod_cast le_max_left 0 _
  · intro d hd hord
    unfold recencyScore
    rw [div_le_one (by norm_num)]
    have hdo : 0 ≤ daysOld today sd := by
      unfold daysOld
      rw [hd]
      simp only [Option.getD_some]
      omega
    have : (max 0 (365 - daysOld today sd) : Int) ≤ 365 := by omega
    exact_mod_cast this
  · intro h365
    unfold recencyScore
    have : (max 0 (365 - daysOld today sd) : Int) = 0 := by omega
    rw [this]
    norm_num
  · intro hnone hord
    unfold recencyScore
    have : daysOld today sd = (today.toOrdinal : Int) - 1 := by
      unfold daysOld
      rw [hnone]
      rfl
    have hmax : (max 0 (365 - daysOld today sd) : Int) = 0 := by omega
    rw [hmax]
    norm_num

/-- C6 witness: the amended clauses applied at concrete dates. -/
theorem recencyScore_clamped_below_witness :
    0 ≤ recencyScore ⟨2026, 10, 12⟩ (some ⟨2025, 1, 1⟩) ∧
    recencyScore ⟨2026, 10, 12⟩ (some ⟨2025, 1, 1⟩) ≤ 1 ∧
    recencyScore ⟨2026, 10, 12⟩ (some ⟨2020, 1, 1⟩) = 0 ∧
    recencyScore ⟨2026, 10, 12⟩ none = 0 :=
  ⟨(recencyScore_clamped_below ⟨2026, 10, 12⟩ (some ⟨2025, 1, 1⟩)).1,
    (recencyScore_clamped_below ⟨2026, 10, 12⟩ (some ⟨2025, 1, 1⟩)).2.1 ⟨2025, 1, 1⟩ rfl
      (by decide),
    (recencyScore_clamped_below ⟨2026, 10, 12⟩ (some ⟨2020, 1, 1⟩)).2.2.1 (by decide),
    (recencyScore_clamped_below ⟨2026, 10, 12⟩ none).2.2.2 rfl (by decide)⟩

/-- Helper: a pipeline run that returns normally marked the Brief completed. -/
theorem runPipelineSteps_ok_status (env : OrchEnv) (q : String) (brief b : Brief)
    (h : runPipelineSteps env q brief = .ok b) : b.status = .completed := by
  unfold runPipelineSteps at h
  cases h1 : env.searchStudies q with
  | error e =>
    rw [h1] at h
    simp at h
  | ok studies =>
    rw [h1] at h
    simp only [] at h
    cases h2 : buildTransparencyReport q studies 15 with
    | error e =>
      rw [h2] at h
      simp at h
    | ok report =>
      rw [h2] at h
      simp only [] at h
      split at h
      · simp only [Except.ok.injEq] at h
        rw [← h]
      · split at h
        · simp at h
        · simp only [Except.ok.injEq] at h
          rw [← h]

/-- Helper: pipeline exceptions are registry, report-traversal or analyzer
errors, never the refresh-guard state error. -/
theorem runPipelineSteps_no_state_error (env : OrchEnv) (q : String) (brief : Brief)
    (e : PipeError) (bp : Brief) (h : runPipelineSteps env q brief = .error (e, bp)) :
    ∀ m, e ≠ .stateError m := by
  unfold runPipelineSteps at h
  cases h1 : env.searchStudies q with
  | error e1 =>
    rw [h1] at h
    simp only [Except.error.injEq, Prod.mk.injEq] at h
    rw [← h.1]
    intro m
    simp
  | ok studies =>
    rw [h1] at h
    simp only [] at h
    cases h2 : buildTransparencyReport q studies 15 with
    | error e2 =>
      rw [h2] at h
      simp only [Except.error.injEq, Prod.mk.injEq] at h
      rw [← h.1]
      intro m
      simp
    | ok report =>
      rw [h2] at h
      simp only [] at h
      split at h
      · simp at h
      · split at h
        · simp only [Except.error.injEq, Prod.mk.injEq] at h
          rw [← h.1]
          intro m
          simp
        · simp at h

/-- Helper: a pipeline run started on a Brief with no Trials leaves exactly
`pipelineTrials` — the freshly normalized records once the fetch and the
report both succeeded, nothing otherwise — regardless of success or
failure. -/
theorem runPipelineSteps_trials (env : OrchEnv) (q : String) (brief : Brief)
    (hb : brief.trials = []) :
    (∀ b, runPipelineSteps env q brief = .ok b → b.trials = pipelineTrials env q) ∧
    (∀ e bp, runPipelineSteps env q brief = .error (e, bp) →
      bp.trials = pipelineTrials env q) := by
  unfold runPipelineSteps pipelineTrials
  cases h1 : env.searchStudies q with
  | error e1 =>
    constructor
    · intro b h
      simp at h
    · intro e bp h
      simp only [Except.error.injEq, Prod.mk.injEq] at h
      rw [← h.2, hb]
  | ok studies =>
    simp only []
    cases h2 : buildTransparencyReport q studies 15 with
    | error e2 =>
      constructor
      · intro b h
        simp at h
      · intro e bp h
        simp only [Except.error.injEq, Prod.mk.injEq] at h
        rw [← h.2, hb]
    | ok report =>
      simp only []
      constructor
      · intro b h
        split at h
        · simp only [Except.ok.injEq] at h
          rw [← h]
          simp [hb]
        · split at h
          · simp at h
          · simp only [Except.ok.injEq] at h
            rw [← h]
            simp [hb]
      · intro e bp h
        split at h
        · simp at h
        · split at h
          · simp only [Except.error.injEq, Prod.mk.injEq] at h
            rw [← h.2]
            simp [hb]
          · simp at h

/-- Helper: the refresh guard modelled from the spec refuses exactly the
`Generating` status. -/
theorem canBeRefreshed_eq_false_iff (b : Brief) :
    canBeRefreshed b = false ↔ b.status = .generating := by
  cases hb : b.status <;> simp [canBeRefreshed, hb]

/-- C2: for every environment and non-empty search term, `generate_brief`
leaves the Brief `Completed` or `Failed`, never `Generating`: it returns
without exception exactly when the status is `Completed`, and any exception
from the fetch or analyze steps leaves the status `Failed`, stores the error
message as the summary, and is re-raised to the caller. -/
theorem generateBrief_terminal_status (env : OrchEnv) (searchTerm : String)
    (displayTopic : Option String) (hne : searchTerm ≠ "") :
    ((generateBrief env searchTerm displayTopic).1.status = .completed ∨
      (generateBrief env searchTerm displayTopic).1.status = .failed) ∧
    ((generateBrief env searchTerm displayTopic).2 = none ↔
      (generateBrief env searchTerm displayTopic).1.status = .completed) ∧
    (∀ e, (generateBrief env searchTerm displayTopic).2 = some e →
      (generateBrief env searchTerm displayTopic).1.status = .failed ∧
      (generateBrief env searchTerm displayTopic).1.gptSummary =
        "Brief generation failed: " ++ e.msg) := by
  unfold generateBrief
  cases hr : runPipelineSteps env searchTerm (initialBrief searchTerm displayTopic) with
  | ok b =>
    have hst := runPipelineSteps_ok_status env searchTerm _ b hr
    simp [hst]
  | error ep =>
    obtain ⟨e, bp⟩ := ep
    simp

/-- C2 witness: a concrete failing run and a concrete successful demo run. -/
theorem generateBrief_terminal_status_witness :
    ((generateBrief failingEnv "alzheimer" none).1.status = .completed ∨
      (generateBrief failingEnv "alzheimer" none).1.status = .failed) ∧
    ((generateBrief failingEnv "alzheimer" none).2 = none ↔
      (generateBrief failingEnv "alzheimer" none).1.status = .completed) ∧
    (∀ e, (generateBrief failingEnv "alzheimer" none).2 = some e →
      (generateBrief failingEnv "alzheimer" none).1.status = .failed ∧
      (generateBrief failingEnv "alzheimer" none).1.gptSummary =
        "Brief generation failed: " ++ e.msg) :=
  generateBrief_terminal_status failingEnv "alzheimer" none (by decide)

/-- C1: the refresh guard.  On a `Generating` Brief, refresh raises the
state error and mutates nothing.  On a `Completed` or `Failed` Brief it
never raises the state error, it replaces the Trial set with `freshTrials` —
the freshly fetched normalization when the fetch and the transparency
report's record traversal both succeed, and nothing when either fails,
since the old Trials are deleted before both — and a refresh that returns
without exception has completed the pipeline. -/
theorem refreshBrief_state_guard (env : OrchEnv) (b : Brief) :
    (b.status = .generating →
      refreshBrief env b =
        (b, some (.stateError "Brief cannot be refreshed (status: generating)"))) ∧
    (b.status ≠ .generating →
      (∀ m, (refreshBrief env b).2 ≠ some (.stateError m)) ∧
      (refreshBrief env b).1.trials = freshTrials env b ∧
      ((refreshBrief env b).2 = none → (refreshBrief env b).1.status = .completed)) := by
  constructor
  · intro hgen
    have hcan : canBeRefreshed b = false := (canBeRefreshed_eq_false_iff b).mpr hgen
    unfold refreshBrief
    rw [hcan]
    simp only [Bool.not_false, if_true, hgen, BriefStatus.str]
    rfl
  · intro hne
    have hcan : canBeRefreshed b = true := by
      cases hc : canBeRefreshed b
      · exact absurd ((canBeRefreshed_eq_false_iff b).mp hc) hne
      · rfl
    have hb2 : (Brief.trials { b with status := BriefStatus.generating, trials := [] }) =
        ([] : List Trial) := rfl
    have htr := runPipelineSteps_trials env (refreshSearchTerm b)
      { b with status := BriefStatus.generating, trials := [] } hb2
    unfold refreshBrief
    rw [hcan]
    simp only [Bool.not_true, Bool.false_eq_true, if_false]
    cases hr : runPipelineSteps env (refreshSearchTerm b)
        { b with status := BriefStatus.generating, trials := [] } with
    | ok b' =>
      have hst := runPipelineSteps_ok_status env (refreshSearchTerm b) _ b' hr
      refine ⟨by simp, ?_, by intro _; simp [hst]⟩
      have hbt := htr.1 b' hr
      rw [hbt]
      rfl
    | error ep =>
      obtain ⟨e, bp⟩ := ep
      have hnse := runPipelineSteps_no_state_error env (refreshSearchTerm b) _ e bp hr
      refine ⟨?_, ?_, by intro h; simp at h⟩
      · intro m
        simp only [Option.some.injEq, ne_eq]
        intro hcontra
        exact hnse m hcontra
      · have hbt := htr.2 e bp hr
        show bp.trials = freshTrials env b
        rw [hbt]
        rfl

/-- C1 witness: the guard clauses applied to a concrete `Generating` Brief
and a concrete `Completed` Brief. -/
theorem refreshBrief_state_guard_witness :
    refreshBrief failingEnv { completedBrief with status := .generating } =
      ({ completedBrief with status := .generating },
        some (.stateError "Brief cannot be refreshed (status: generating)")) ∧
    ((∀ m, (refreshBrief failingEnv completedBrief).2 ≠ some (.stateError m)) ∧
      (refreshBrief failingEnv completedBrief).1.trials =
        freshTrials failingEnv completedBrief ∧
      ((refreshBrief failingEnv completedBrief).2 = none →
        (refreshBrief failingEnv completedBrief).1.status = .completed)) :=
  ⟨(refreshBrief_state_guard failingEnv { completedBrief with status := .generating }).1 rfl,
    (refreshBrief_state_guard failingEnv completedBrief).2 (by decide)⟩

/-- C3 counterexample: `completedBrief` is a Completed Brief holding one
Trial; in `failingEnv` the refresh fetch fails, so the refresh passes the
precondition and then fails.  The status is restored to `Completed`, but the
Brief is not left exactly as it was before the attempt: its Trials were
already deleted and are not restored. -/
theorem refreshBrief_not_frame_preserving :
    canBeRefreshed completedBrief = true ∧
    (refreshBrief failingEnv completedBrief).2 = some (.apiError "boom") ∧
    (refreshBrief failingEnv completedBrief).1.status = .completed ∧
    (refreshBrief failingEnv completedBrief).1 ≠ completedBrief := by decide

/-- C3 (amended): every refresh that fails — whether refused by the guard or
failing mid-pipeline — leaves the Brief's status at its exact pre-refresh
value (a Failed Brief stays Failed, a Completed Brief returns to Completed,
never forced to Failed); the deleted Trials and overwritten metadata,
however, are not rolled back. -/
theorem refreshBrief_restores_status (env : OrchEnv) (b : Brief) (e : PipeError)
    (h : (refreshBrief env b).2 = some e) :
    (refreshBrief env b).1.status = b.status := by
  unfold refreshBrief at h ⊢
  cases hcan : canBeRefreshed b
  · simp
  · simp only [Bool.not_true, Bool.false_eq_true, if_false] at h ⊢
    cases hr : runPipelineSteps env (refreshSearchTerm b)
        { b with status := BriefStatus.generating, trials := [] }
    case error ep =>
      obtain ⟨e', bp⟩ := ep
      simp
    case ok b' =>
      rw [hr] at h
      simp [hcan] at h

/-- C3 witness: the amended restoration applied to the concrete failing
refresh of a Completed Brief. -/
theorem refreshBrief_restores_status_witness :
    (refreshBrief failingEnv completedBrief).1.status = completedBrief.status :=
  refreshBrief_restores_status failingEnv completedBrief (.apiError "boom") (by decide)

/-- Helper: a page delivered by the retry wrapper came from some HTTP
attempt's successful response. -/
theorem makeRequestGo_ok (f : Nat → Except String Page) (maxRetries : Nat) :
    ∀ fuel attempt p, (makeRequestGo f maxRetries fuel attempt).result = .ok p →
      ∃ a, f a = .ok p := by
  intro fuel
  induction fuel with
  | zero =>
    intro attempt p h
    simp [makeRequestGo] at h
  | succ fuel ih =>
    intro attempt p h
    unfold makeRequestGo at h
    cases hf : f attempt <;> rw [hf] at h <;> simp only [] at h
    · split at h
      · simp at h
      · simp only [] at h
        exact ih (attempt + 1) p h
    · rw [Except.ok.injEq] at h
      exact ⟨attempt, by rw [hf, h]⟩

/-- Helper: the paging loop invariant — with at most 100 studies per page,
at most `fuel + pageCount` page requests total and at most
`100 * (fuel + pageCount)` accumulated studies on a successful return. -/
theorem searchStudiesGo_bounds (query : String) (net : Nat → Nat → Except String Page)
    (maxResults : Nat)
    (h100 : ∀ i a p, net i a = .ok p → p.studies.length ≤ 100) :
    ∀ fuel pageCount acc, fuel + pageCount = 5 → acc.length ≤ 100 * pageCount →
      (searchStudiesGo query net maxResults fuel pageCount acc).pagesRequested ≤ 5 ∧
      ∀ l, (searchStudiesGo query net maxResults fuel pageCount acc).result = .ok l →
        l.length ≤ 500 := by
  intro fuel
  induction fuel with
  | zero =>
    intro pageCount acc hsum hacc
    refine ⟨by simp [searchStudiesGo]; omega, ?_⟩
    intro l hl
    simp only [searchStudiesGo, Except.ok.injEq] at hl
    rw [← hl]
    omega
  | succ fuel ih =>
    intro pageCount acc hsum hacc
    unfold searchStudiesGo
    cases hm : (makeRequest (net pageCount)).result with
    | error e =>
      by_cases hpc : pageCount = 0 <;> simp only [hpc, if_true, if_pos, if_false, if_neg,
        not_false_iff, reduceIte]
      · exact ⟨by omega, by intro l hl; simp at hl⟩
      · refine ⟨by omega, ?_⟩
        intro l hl
        simp only [Except.ok.injEq] at hl
        rw [← hl]
        omega
    | ok page =>
      have hlen : page.studies.length ≤ 100 := by
        obtain ⟨a, ha⟩ := makeRequestGo_ok (net pageCount) 3 3 0 page hm
        exact h100 pageCount a page ha
      by_cases he : page.studies.isEmpty
      · refine ⟨?_, ?_⟩ <;> simp only [he, if_true, if_pos]
        · omega
        · intro l hl
          simp only [Except.ok.injEq] at hl
          rw [← hl]
          omega
      · simp only [he, if_false, Bool.false_eq_true, not_false_iff, reduceIte]
        cases hla : (if pageCount = 0 then logSearchAnalysis query (page.studies.take 5)
            else Except.ok ()) with
        | error ea =>
          by_cases hpc : pageCount = 0 <;> simp only [hpc, if_true, if_pos, if_false,
            if_neg, not_false_iff, reduceIte]
          · exact ⟨by omega, by intro l hl; simp at hl⟩
          · refine ⟨by omega, ?_⟩
            intro l hl
            simp only [Except.ok.injEq] at hl
            rw [← hl]
            omega
        | ok u =>
        have hacc2 : (acc ++ page.studies).length ≤ 100 * (pageCount + 1) := by
          rw [List.length_append]
          omega
        cases ht : page.nextPageToken with
        | none =>
          simp only []
          refine ⟨by omega, ?_⟩
          intro l hl
          rw [Except.ok.injEq] at hl
          rw [← hl]
          omega
        | some tok =>
          simp only []
          by_cases htok : tok = ""
          · simp only [htok, if_true, if_pos, reduceIte]
            refine ⟨by omega, ?_⟩
            intro l hl
            rw [Except.ok.injEq] at hl
            rw [← hl]
            omega
          · simp only [htok, if_false, not_false_iff, reduceIte]
            by_cases hmax : maxResults ≤ (acc ++ page.studies).length
            · simp only [hmax, if_true, if_pos, reduceIte]
              refine ⟨by omega, ?_⟩
              intro l hl
              rw [Except.ok.injEq] at hl
              rw [← hl]
              omega
            · simp only [hmax, if_false, not_false_iff, reduceIte]
              exact ih (pageCount + 1) (acc ++ page.studies) (by omega) hacc2

/-- C4: when every page the registry returns carries at most 100 studies
(the requested `pageSize`), `search_studies` issues at most 5 page requests
and returns at most `max(maxResults, 500)` studies — it stops at the first
of: 5 pages fetched, the configured maximum reached, an empty page, or a
missing continuation token (all four stops are branches of
`searchStudiesGo`). -/
theorem searchStudies_bounded (query : String) (net : Nat → Nat → Except String Page)
    (maxResults : Nat)
    (h100 : ∀ i a p, net i a = .ok p → p.studies.length ≤ 100) :
    (searchStudies query net maxResults).pagesRequested ≤ 5 ∧
    ∀ l, (searchStudies query net maxResults).result = .ok l →
      l.length ≤ max maxResults 500 := by
  have h := searchStudiesGo_bounds query net maxResults h100 5 0 [] (by omega) (by simp)
  exact ⟨h.1, fun l hl => le_trans (h.2 l hl) (le_max_right _ _)⟩

/-- A registry that always answers full pages (of well-formed empty-dict
records) with a continuation token. -/
def fullPageNet : Nat → Nat → Except String Page := fun _ _ =>
  .ok { studies := List.replicate 100 (Json.obj []), nextPageToken := some "tok" }

/-- C4 witness: the bounds applied to a concrete always-full registry. -/
theorem searchStudies_bounded_witness :
    (searchStudies "glioma" fullPageNet 1000).pagesRequested ≤ 5 ∧
    ∀ l, (searchStudies "glioma" fullPageNet 1000).result = .ok l →
      l.length ≤ max 1000 500 :=
  searchStudies_bounded "glioma" fullPageNet 1000 (by
    intro i a p hp
    simp only [fullPageNet, Except.ok.injEq] at hp
    rw [← hp]
    simp)

/-- A network that is always down. -/
def downNet : Nat → Nat → Except String Page := fun _ _ => .error "down"

/-- C5: each per-page HTTP call is retried up to 3 attempts with doubling
backoff (the possible sleep traces are exactly the prefixes of `[2^0, 2^1]`);
a first-page failure after the retries makes `search_studies` raise the
registry error, while a later-page failure makes it return the studies
accumulated from the earlier pages. -/
theorem retry_and_partial_success :
    (∀ f, (makeRequest f).calls ≤ 3 ∧
      ((makeRequest f).sleeps = [] ∨ (makeRequest f).sleeps = [1] ∨
        (makeRequest f).sleeps = [1, 2])) ∧
    (∀ query net maxResults e, (makeRequest (net 0)).result = .error e →
      (searchStudies query net maxResults).result =
        .error ("Failed to fetch clinical trials: " ++ e)) ∧
    (∀ query net maxResults fuel pageCount acc e, pageCount ≠ 0 →
      (makeRequest (net pageCount)).result = .error e →
      searchStudiesGo query net maxResults (fuel + 1) pageCount acc =
        ⟨.ok acc, pageCount + 1⟩) := by
  refine ⟨?_, ?_, ?_⟩
  · intro f
    unfold makeRequest
    cases h0 : f 0 with
    | ok r => simp [makeRequestGo, h0]
    | error e0 =>
      cases h1 : f 1 with
      | ok r => simp [makeRequestGo, h0, h1]
      | error e1 =>
        cases h2 : f 2 with
        | ok r => simp [makeRequestGo, h0, h1, h2]
        | error e2 => simp [makeRequestGo, h0, h1, h2]
  · intro query net maxResults e h
    unfold searchStudies searchStudiesGo
    rw [h]
    simp
  · intro query net maxResults fuel pageCount acc e hpc h
    unfold searchStudiesGo
    rw [h]
    simp [hpc]

/-- C5 witness: the retry bound on an always-failing call, the first-page
failure raising, and a later-page failure returning the accumulated page. -/
theorem retry_and_partial_success_witness :
    ((makeRequest (downNet 0)).calls ≤ 3 ∧
      ((makeRequest (downNet 0)).sleeps = [] ∨ (makeRequest (downNet 0)).sleeps = [1] ∨
        (makeRequest (downNet 0)).sleeps = [1, 2])) ∧
    (searchStudies "glioma" downNet 10).result =
      .error ("Failed to fetch clinical trials: " ++ "Request failed: down") ∧
    searchStudiesGo "glioma" downNet 10 (3 + 1) 1 [Json.str "a"] =
      ⟨.ok [Json.str "a"], 1 + 1⟩ :=
  ⟨retry_and_partial_success.1 (downNet 0),
    retry_and_partial_success.2.1 "glioma" downNet 10 "Request failed: down" (by rfl),
    retry_and_partial_success.2.2 "glioma" downNet 10 3 1 [Json.str "a"]
      "Request failed: down" (by decide) (by rfl)⟩

/-- Helper: `dict.get` on a dict never raises. -/
theorem Json.get_obj (fs : List (String × Json)) (k : String) (d : Json) :
    (Json.obj fs).get k d = .ok ((fs.lookup k).getD d) := by
  unfold Json.get
  cases h : fs.lookup k <;> simp [h]

/-- Helper: the trichotomy `create_trial_from_study` runs into — the NCT
extraction chain raises (and so does the full extraction, at the same
exception), or it yields a falsy identifier and the record is skipped, or it
yields a truthy identifier. -/
theorem createE_cases (study : Json) :
    (∃ e, extractNctId study = .error e ∧ createTrialFromStudyE study = .error e) ∨
    (∃ v, extractNctId study = .ok v ∧ v.truthy = false ∧
      createTrialFromStudyE study = .ok none) ∨
    (∃ v, extractNctId study = .ok v ∧ v.truthy = true) := by
  unfold extractNctId createTrialFromStudyE
  cases study with
  | null => exact Or.inl ⟨.attributeError, rfl, rfl⟩
  | bool b => exact Or.inl ⟨.attributeError, rfl, rfl⟩
  | num n => exact Or.inl ⟨.attributeError, rfl, rfl⟩
  | str s => exact Or.inl ⟨.attributeError, rfl, rfl⟩
  | arr xs => exact Or.inl ⟨.attributeError, rfl, rfl⟩
  | obj fields =>
    simp only [Json.get_obj, Except.bind, bind]
    cases hprot : (fields.lookup "protocolSection").getD (.obj []) with
    | obj pfs =>
      simp only [Json.get_obj, Except.bind, bind]
      cases hid : (pfs.lookup "identificationModule").getD (.obj []) with
      | obj ifs =>
        simp only [Json.get_obj, Except.bind, bind]
        cases hv : ((ifs.lookup "nctId").getD (.str "")).truthy
        · refine Or.inr (Or.inl ⟨_, rfl, hv, ?_⟩)
          simp only [hv, Bool.not_false, if_true, if_pos]
          rfl
        · exact Or.inr (Or.inr ⟨_, rfl, hv⟩)
      | null => exact Or.inl ⟨.attributeError, rfl, rfl⟩
      | bool b => exact Or.inl ⟨.attributeError, rfl, rfl⟩
      | num n => exact Or.inl ⟨.attributeError, rfl, rfl⟩
      | str s => exact Or.inl ⟨.attributeError, rfl, rfl⟩
      | arr xs => exact Or.inl ⟨.attributeError, rfl, rfl⟩
    | null => exact Or.inl ⟨.attributeError, rfl, rfl⟩
    | bool b => exact Or.inl ⟨.attributeError, rfl, rfl⟩
    | num n => exact Or.inl ⟨.attributeError, rfl, rfl⟩
    | str s => exact Or.inl ⟨.attributeError, rfl, rfl⟩
    | arr xs => exact Or.inl ⟨.attributeError, rfl, rfl⟩

/-- Helper: the demo analyzer never fails. -/
theorem analyzeTrials_demo_ok (env : OrchEnv) (topic : String) (ts : List Trial)
    (h : env.demoMode = true) : ∃ s, analyzeTrials env topic ts = .ok s := by
  unfold analyzeTrials
  rw [h]
  by_cases he : ts.isEmpty <;> simp [he]

/-- Helper: with a successful fetch, a successful transparency report and
the demo analyzer, the pipeline body returns normally. -/
theorem runPipelineSteps_demo_ok (env : OrchEnv) (q : String) (brief : Brief)
    (hdemo : env.demoMode = true) (studies : List Json)
    (hs : env.searchStudies q = .ok studies) (report : SearchReport)
    (hrep : buildTransparencyReport q studies 15 = .ok report) :
    ∃ b, runPipelineSteps env q brief = .ok b := by
  unfold runPipelineSteps
  rw [hs]
  simp only []
  rw [hrep]
  simp only []
  split
  · exact ⟨_, rfl⟩
  · obtain ⟨s, hsa⟩ := analyzeTrials_demo_ok env brief.topic _ hdemo
    rw [hsa]
    exact ⟨_, rfl⟩

/-- C9: a Trial is persisted only from a record whose NCT extraction
succeeded with a truthy identifier; a record whose identifier is falsy, or
whose extraction raises a structural error, is dropped (yields no Trial);
and dropping is isolated per record — once the fetch and the transparency
report have succeeded (the steps that run before any Trial is created), the
batch becomes exactly the record-wise `filterMap`, and a demo-analyzer run
still terminates `Completed` with no exception however many records were
dropped. -/
theorem createTrial_isolation :
    (∀ study t, createTrialFromStudy study = some t →
      ∃ v, extractNctId study = .ok v ∧ v.truthy = true) ∧
    (∀ study v, extractNctId study = .ok v → v.truthy = false →
      createTrialFromStudy study = none) ∧
    (∀ study e, extractNctId study = .error e → createTrialFromStudy study = none) ∧
    (∀ env searchTerm displayTopic studies report, env.demoMode = true →
      env.searchStudies searchTerm = .ok studies →
      buildTransparencyReport searchTerm studies 15 = .ok report →
      (generateBrief env searchTerm displayTopic).1.trials =
        studies.filterMap createTrialFromStudy ∧
      (generateBrief env searchTerm displayTopic).2 = none ∧
      (generateBrief env searchTerm displayTopic).1.status = .completed) := by
  refine ⟨?_, ?_, ?_, ?_⟩
  · intro study t h
    rcases createE_cases study with ⟨e, _, hc⟩ | ⟨v, _, _, hc⟩ | ⟨v, hok, hv⟩
    · unfold createTrialFromStudy at h
      rw [hc] at h
      simp at h
    · unfold createTrialFromStudy at h
      rw [hc] at h
      simp at h
    · exact ⟨v, hok, hv⟩
  · intro study v hok hv
    rcases createE_cases study with ⟨e, he, hc⟩ | ⟨v', hok', _, hc⟩ | ⟨v', hok', hv'⟩
    · rw [he] at hok
      simp at hok
    · unfold createTrialFromStudy
      rw [hc]
    · rw [hok'] at hok
      simp only [Except.ok.injEq] at hok
      rw [hok] at hv'
      rw [hv'] at hv
      simp at hv
  · intro study e he
    rcases createE_cases study with ⟨e', _, hc⟩ | ⟨v, hok, _, hc⟩ | ⟨v, hok, _⟩
    · unfold createTrialFromStudy
      rw [hc]
    · rw [hok] at he
      simp at he
    · rw [hok] at he
      simp at he
  · intro env searchTerm displayTopic studies report hdemo hsearch hrep
    obtain ⟨b, hb⟩ := runPipelineSteps_demo_ok env searchTerm
      (initialBrief searchTerm displayTopic) hdemo studies hsearch report hrep
    have hst := runPipelineSteps_ok_status env searchTerm _ b hb
    have htr := (runPipelineSteps_trials env searchTerm
      (initialBrief searchTerm displayTopic) rfl).1 b hb
    unfold generateBrief
    rw [hb]
    refine ⟨?_, rfl, hst⟩
    rw [htr]
    unfold pipelineTrials
    rw [hsearch]
    simp only []
    rw [hrep]

/-- A malformed raw record: `protocolSection` is a string, so field
extraction raises an `AttributeError` in Python. -/
def malformedStudy : Json := .obj [("protocolSection", .str "oops")]

/-- A raw record without an NCT identifier. -/
def noIdStudy : Json :=
  .obj [("protocolSection", .obj [("identificationModule",
    .obj [("briefTitle", .str "NoId")])])]

/-- A well-formed raw record. -/
def goodStudy : Json := .obj [("protocolSection", .obj [
  ("identificationModule", .obj [("nctId", .str "NCT123"), ("briefTitle", .str "T1")]),
  ("statusModule", .obj [("overallStatus", .str "Recruiting"),
    ("startDateStruct", .obj [("date", .str "2024-05")])]),
  ("sponsorCollaboratorsModule", .obj [("leadSponsor", .obj [("name", .str "Acme")])]),
  ("designModule", .obj [("phases", .arr [.str "PHASE3"])])])]

/-- A raw record whose `sponsorCollaboratorsModule` is a string: it passes
the search-analysis and report traversals (which never read the sponsor
module) but `create_trial_from_study`'s own extraction raises on it. -/
def badSponsorStudy : Json :=
  .obj [("protocolSection", .obj [
    ("identificationModule", .obj [("nctId", .str "NCT999"), ("briefTitle", .str "B")]),
    ("sponsorCollaboratorsModule", .str "oops")])]

/-- An environment that fetches three sample records (one good, one without
an identifier, one whose sponsor module breaks only the Trial extraction)
and analyzes in demo mode. -/
def mixedEnv : OrchEnv :=
  { searchStudies := fun _ => .ok [goodStudy, noIdStudy, badSponsorStudy],
    demoMode := true, liveCompletion := fun _ => .ok "", today := ⟨2026, 10, 12⟩ }

/-- C9 witness: the clauses applied to the concrete records — the id-less
and the malformed record are dropped, and on a batch whose report traversal
succeeds, the run keeps exactly the good record and completes. -/
theorem createTrial_isolation_witness :
    createTrialFromStudy noIdStudy = none ∧
    createTrialFromStudy malformedStudy = none ∧
    ((generateBrief mixedEnv "glioma" none).1.trials =
        [goodStudy, noIdStudy, badSponsorStudy].filterMap createTrialFromStudy ∧
      (generateBrief mixedEnv "glioma" none).2 = none ∧
      (generateBrief mixedEnv "glioma" none).1.status = .completed) :=
  ⟨createTrial_isolation.2.1 noIdStudy (.str "") (by rfl) (by decide),
    createTrial_isolation.2.2.1 malformedStudy .attributeError (by rfl),
    createTrial_isolation.2.2.2 mixedEnv "glioma" none
      [goodStudy, noIdStudy, badSponsorStudy]
      { query := some "glioma", totalResults := 3 } rfl rfl (by rfl)⟩

/-- An environment with a demo-mode analyzer and an empty fetch. -/
def demoEnv : OrchEnv :=
  { searchStudies := fun _ => .ok [], demoMode := true,
    liveCompletion := fun _ => .ok "", today := ⟨2026, 10, 12⟩ }

/-- A list of 51 trials, one more than the live-mode selection cap. -/
def manyTrials : List Trial := List.replicate 51 sampleTrial

/-- C10: in demo mode, a non-empty trial list is analyzed as a whole — the
narrative is rendered from statistics over the entire list passed in
(`demoStats`), with the trial count equal to the full list's length and the
recruiting count over the full list, not over the 50-trial relevance
selection live mode would apply first; with more than 50 trials the demo
count strictly exceeds what the selection would have kept. -/
theorem demoAnalysis_uses_full_list (env : OrchEnv) (topic : String)
    (trials : List Trial) (hdemo : env.demoMode = true) (hne : trials ≠ []) :
    analyzeTrials env topic trials =
      .ok (renderDemoAnalysis env.today topic (demoStats trials)) ∧
    (demoStats trials).trialCount = trials.length ∧
    (demoStats trials).activeCount = (trials.filter (fun t => t.isActive)).length ∧
    (50 < trials.length →
      (filterRelevantTrials env.today trials).length < (demoStats trials).trialCount) := by
  refine ⟨?_, rfl, rfl, ?_⟩
  · unfold analyzeTrials
    rw [hdemo]
    have he : trials.isEmpty = false := by
      cases trials
      · exact absurd rfl hne
      · rfl
    rw [he]
    simp
  · intro h50
    have hlen : (filterRelevantTrials env.today trials).length ≤ 50 := by
      unfold filterRelevantTrials
      rw [List.length_take]
      omega
    have hc : (demoStats trials).trialCount = trials.length := rfl
    omega

/-- C10 witness: a 51-trial demo run analyzed over the full list. -/
theorem demoAnalysis_uses_full_list_witness :
    analyzeTrials demoEnv "glioma" manyTrials =
      .ok (renderDemoAnalysis demoEnv.today "glioma" (demoStats manyTrials)) ∧
    (demoStats manyTrials).trialCount = manyTrials.length ∧
    (demoStats manyTrials).activeCount =
      (manyTrials.filter (fun t => t.isActive)).length ∧
    (50 < manyTrials.length →
      (filterRelevantTrials demoEnv.today manyTrials).length <
        (demoStats manyTrials).trialCount) :=
  demoAnalysis_uses_full_list demoEnv "glioma" manyTrials rfl (by decide)

/-- Helper: inserting a trial of score `s` into a list places it before the
whole score-`s` class already present (every element passed over has a
strictly larger score), so the filtered class gains the new element at the
front. -/
theorem filter_orderedInsert_eq (today : Date) (x : Trial) (l : List Trial) (s : ℚ)
    (hx : trialScore today x = s) :
    (List.orderedInsert (scoreGE today) x l).filter
        (fun t => decide (trialScore today t = s)) =
      x :: l.filter (fun t => decide (trialScore today t = s)) := by
  induction l with
  | nil => simp [hx]
  | cons b l ih =>
    unfold List.orderedInsert
    by_cases hr : scoreGE today x b
    · rw [if_pos hr]
      simp [List.filter_cons, hx]
    · rw [if_neg hr]
      have hb : ¬ trialScore today b = s := by
        intro hbs
        exact hr (by unfold scoreGE; rw [hbs, hx])
      simp [List.filter_cons, hb, ih]

/-- Helper: inserting a trial of a different score leaves a score class's
filtered subsequence unchanged. -/
theorem filter_orderedInsert_ne (today : Date) (x : Trial) (l : List Trial) (s : ℚ)
    (hx : ¬ trialScore today x = s) :
    (List.orderedInsert (scoreGE today) x l).filter
        (fun t => decide (trialScore today t = s)) =
      l.filter (fun t => decide (trialScore today t = s)) := by
  induction l with
  | nil => simp [hx]
  | cons b l ih =>
    unfold List.orderedInsert
    by_cases hr : scoreGE today x b
    · rw [if_pos hr]
      simp [List.filter_cons, hx]
    · rw [if_neg hr]
      simp [List.filter_cons, ih]

/-- Helper: the descending insertion sort is stable — each score class of
the output is exactly the input's score class in input order. -/
theorem filter_insertionSort (today : Date) (s : ℚ) :
    ∀ l : List Trial,
      (List.insertionSort (scoreGE today) l).filter
          (fun t => decide (trialScore today t = s)) =
        l.filter (fun t => decide (trialScore today t = s)) := by
  intro l
  induction l with
  | nil => rfl
  | cons x l ih =>
    show (List.orderedInsert (scoreGE today) x
        (List.insertionSort (scoreGE today) l)).filter _ = _
    by_cases hx : trialScore today x = s
    · rw [filter_orderedInsert_eq today x _ s hx, ih]
      simp [List.filter_cons, hx]
    · rw [filter_orderedInsert_ne today x _ s hx, ih]
      simp [List.filter_cons, hx]

/-- Helper: a filter of a prefix is a prefix of the filter. -/
theorem filter_take_sub {α : Type} :
    ∀ (l : List α) (n : Nat) (p : α → Bool),
      ∃ k, (l.take n).filter p = (l.filter p).take k := by
  intro l
  induction l with
  | nil =>
    intro n p
    exact ⟨0, by simp⟩
  | cons a l ih =>
    intro n p
    cases n with
    | zero => exact ⟨0, by simp⟩
    | succ n =>
      obtain ⟨k, hk⟩ := ih n p
      by_cases hp : p a
      · exact ⟨k + 1, by simp [List.take_succ_cons, List.filter_cons, hp, hk]⟩
      · exact ⟨k, by simp [List.take_succ_cons, List.filter_cons, hp, hk]⟩

/-- C7: `_filter_relevant_trials` returns at most 50 trials, sorted by
descending `phase_weight + recency_weight` score; ties keep input order
(each score class of the output is a prefix of the input's score class in
input order — the stable-sort property); the output is the 50-prefix of a
permutation of the input; and the phase weights are 4/3/2/1 for
`PHASE4`/`PHASE3`/`PHASE2`/`PHASE1` and 0 for any other or unknown phase. -/
theorem filterRelevantTrials_spec (today : Date) (trials : List Trial) :
    (filterRelevantTrials today trials).length ≤ 50 ∧
    (filterRelevantTrials today trials).Pairwise
      (fun a b => trialScore today b ≤ trialScore today a) ∧
    (∀ s : ℚ, ∃ k,
      (filterRelevantTrials today trials).filter
          (fun t => decide (trialScore today t = s)) =
        (trials.filter (fun t => decide (trialScore today t = s))).take k) ∧
    (∃ l : List Trial, List.Perm l trials ∧ filterRelevantTrials today trials = l.take 50) ∧
    (∀ t, trialScore today t =
      (phasePriority.lookup t.phase).getD 0 + recencyScore today t.startDate) ∧
    (phasePriority.lookup "PHASE4").getD 0 = 4 ∧
    (phasePriority.lookup "PHASE3").getD 0 = 3 ∧
    (phasePriority.lookup "PHASE2").getD 0 = 2 ∧
    (phasePriority.lookup "PHASE1").getD 0 = 1 ∧
    (∀ p, p ∉ ["PHASE4", "PHASE3", "PHASE2", "PHASE1"] →
      (phasePriority.lookup p).getD 0 = 0) := by
  refine ⟨?_, ?_, ?_, ?_, fun t => rfl, by decide, by decide, by decide, by decide, ?_⟩
  · rw [filterRelevantTrials, List.length_take]
    omega
  · exact List.Pairwise.sublist (List.take_sublist 50 _)
      (List.sorted_insertionSort (scoreGE today) trials)
  · intro s
    obtain ⟨k, hk⟩ := filter_take_sub (List.insertionSort (scoreGE today) trials) 50
      (fun t => decide (trialScore today t = s))
    refine ⟨k, ?_⟩
    rw [filterRelevantTrials, hk, filter_insertionSort today s trials]
  · exact ⟨List.insertionSort (scoreGE today) trials,
      List.perm_insertionSort (scoreGE today) trials, rfl⟩
  · intro p hp
    simp only [List.mem_cons, List.not_mem_nil, or_false, not_or] at hp
    obtain ⟨h4, h3, h2, h1⟩ := hp
    have e4 : (p == "PHASE4") = false := beq_eq_false_iff_ne.mpr h4
    have e3 : (p == "PHASE3") = false := beq_eq_false_iff_ne.mpr h3
    have e2 : (p == "PHASE2") = false := beq_eq_false_iff_ne.mpr h2
    have e1 : (p == "PHASE1") = false := beq_eq_false_iff_ne.mpr h1
    simp [phasePriority, List.lookup, e4, e3, e2, e1]

/-- C7 witness: the clauses applied at a concrete date and trial list, and
the zero weight of a phase code outside the priority table. -/
theorem filterRelevantTrials_spec_witness :
    (filterRelevantTrials ⟨2026, 10, 12⟩ manyTrials).length ≤ 50 ∧
    (phasePriority.lookup "EARLY_PHASE1").getD 0 = 0 :=
  ⟨(filterRelevantTrials_spec ⟨2026, 10, 12⟩ manyTrials).1,
    (filterRelevantTrials_spec ⟨2026, 10, 12⟩ manyTrials).2.2.2.2.2.2.2.2.2
      "EARLY_PHASE1" (by decide)⟩

end ScanX
